import Mathlib

/-!
Verification development for the Bulk 2.0 pipeline of `nsss` (a rewrite of
simple-salesforce).  The definitions below are shallow embeddings of the
functions in `src/nsss/api/bulk2.py`; the doc comment of each definition names the
Python symbol it embeds.  Machine behaviour that is pure (CSV chunking, payload
construction, string sanitisation) is embedded as Lean functions on
`String`/`List`; the network-facing steps (create/poll/upload) are embedded by
passing the sequence of server responses explicitly.
-/

namespace Bulk2

/-- Job states, as used by `bulk2.py` (the values of `job_info["state"]`):
Open, UploadComplete, InProgress, JobComplete, Failed, Aborted.
The `JobState` alias is imported by `bulk2.py` from `nsss.utils.base` but the
declaration itself is absent from that file; the six string values are taken
from their uses in `wait_for_job` / `_upload_data` and from the spec. -/
inductive JobState
  | jobOpen
  | uploadComplete
  | inProgress
  | jobComplete
  | failed
  | aborted
deriving DecidableEq, Repr

/-- Rendering of a `JobState` back to the wire string used in messages. -/
def stateText : JobState → String
  | .jobOpen => "Open"
  | .uploadComplete => "UploadComplete"
  | .inProgress => "InProgress"
  | .jobComplete => "JobComplete"
  | .failed => "Failed"
  | .aborted => "Aborted"

/-- Bulk operations (`SFOperation` in `nsss.utils`); the seven literals appear
in `nsss/utils/base.py` (`SFOperations`). -/
inductive SFOperation
  | delete
  | hardDelete
  | insert
  | query
  | queryAll
  | update
  | upsert
deriving DecidableEq, Repr

/-- Wire string of an operation (Python passes the literal strings around). -/
def opText : SFOperation → String
  | .delete => "delete"
  | .hardDelete => "hardDelete"
  | .insert => "insert"
  | .query => "query"
  | .queryAll => "queryAll"
  | .update => "update"
  | .upsert => "upsert"

/-- Column delimiters; the keys of `_delimiter_char` in `bulk2.py`. -/
inductive ColumnDelimiter
  | backquote
  | caret
  | comma
  | pipe
  | semicolon
  | tab
deriving DecidableEq, Repr

/-- Table `_delimiter_char` of `bulk2.py` (lines 59-66). -/
def delimiterChar : ColumnDelimiter → Char
  | .backquote => Char.ofNat 96
  | .caret => '^'
  | .comma => ','
  | .pipe => '|'
  | .semicolon => ';'
  | .tab => '\t'

/-- Line endings; the keys of `_line_ending_char` in `bulk2.py`. -/
inductive LineEnding
  | lf
  | crlf
deriving DecidableEq, Repr

/-- Table `_line_ending_char` of `bulk2.py` (lines 67-70). -/
def lineEndingChars : LineEnding → String
  | .lf => "\n"
  | .crlf => "\r\n"

/-- Exception hierarchy from `nsss/utils/exceptions.py` restricted to the
classes raised by `bulk2.py`. -/
inductive SFError
  | operationError (msg : String)
  | bulkV2LoadError (msg : String)
  | bulkV2ExtractError (msg : String)
deriving DecidableEq, Repr

/-! ## CSV chunker (`Bulk2SFType._split_csv` / `__yield_chunks`) -/

/-- Constant `MAX_INGEST_JOB_FILE_SIZE` (bulk2.py line 55): 100 MiB. -/
def maxIngestJobFileSize : Int := 100 * 1024 * 1024

/-- Splitting a text into its lines, keeping the terminators — the model of
`file.readlines()` / `str.splitlines(True)` for `"\n"`-terminated text. -/
def splitLinesKeepAux : List Char → List Char → List String
  | [], [] => []
  | [], acc => [String.mk acc.reverse]
  | c :: rest, acc =>
      if c = '\n' then String.mk (acc.reverse ++ ['\n']) :: splitLinesKeepAux rest []
      else splitLinesKeepAux rest (c :: acc)

/-- See `splitLinesKeepAux`. -/
def splitLinesKeep (s : String) : List String := splitLinesKeepAux s.data []

/-- Embedding of `Bulk2SFType.__yield_chunks` (bulk2.py lines 499-518), with the loop state
(`records_size`, `bytes_size`, `buff`) made explicit.  `line.encode("utf-8")`
lengths are `String.utf8ByteSize`; `header + "".join(buff)` is
`header ++ String.join buff`.  The bounds are `Int` because `_split_csv` can
feed them values derived from `float("-inf")` arithmetic. -/
def yieldChunksAux (header : String) (maxRecords maxBytes : Int) :
    List String → Nat → Nat → List String → List (Nat × String)
  | [], recordsSize, _bytesSize, buff =>
      if buff.isEmpty then [] else [(recordsSize, header ++ String.join buff)]
  | line :: rest, recordsSize, bytesSize, buff =>
      if ((recordsSize + 1 : Nat) : Int) > maxRecords
          ∨ ((bytesSize + line.utf8ByteSize : Nat) : Int) > maxBytes then
        (if buff.isEmpty then []
         else [(recordsSize + 1 - 1, header ++ String.join buff)]) ++
          yieldChunksAux header maxRecords maxBytes rest 1 line.utf8ByteSize [line]
      else
        yieldChunksAux header maxRecords maxBytes rest (recordsSize + 1)
          (bytesSize + line.utf8ByteSize) (buff ++ [line])

/-- Entry point of `__yield_chunks`: `records_size = 0`, `bytes_size = 0`,
`buff = []`. -/
def yieldChunks (header : String) (lines : List String) (maxRecords maxBytes : Int) :
    List (Nat × String) :=
  yieldChunksAux header maxRecords maxBytes lines 0 0 []

/-- Embedding of `Bulk2SFType._split_csv`, file branch (bulk2.py lines 473-484):
`header, *lines = readlines()`, then
`_max_records = max(max_records or float("-inf"), len(lines))` and
`_max_bytes = min(getsize(filename), MAX_INGEST_JOB_FILE_SIZE - 1 MiB)`.
`content` is the file text, so `os.path.getsize` is its UTF-8 byte size.
`maxRecords = some 0` and `none` both fall to `float("-inf")` because Python
evaluates `max_records or float("-inf")` by truthiness.  An empty file would
raise `ValueError` on unpacking; the model returns `[]` there. -/
def splitCsvFile (content : String) (maxRecords : Option Int) : List (Nat × String) :=
  match splitLinesKeep content with
  | [] => []
  | header :: lines =>
      yieldChunks header lines
        (match maxRecords with
         | none => (lines.length : Int)
         | some m => if m = 0 then (lines.length : Int) else max m (lines.length : Int))
        (min (content.utf8ByteSize : Int) (maxIngestJobFileSize - 1 * 1024 * 1024))

/-- The chunker restated on line lists (same branching as `yieldChunksAux`,
but each chunk keeps its buffer as a list instead of being rendered to
`header ++ text`); used to relate the emitted texts back to the input rows. -/
def chunkListsAux (maxRecords maxBytes : Int) :
    List String → Nat → Nat → List String → List (Nat × List String)
  | [], recordsSize, _bytesSize, buff =>
      if buff.isEmpty then [] else [(recordsSize, buff)]
  | line :: rest, recordsSize, bytesSize, buff =>
      if ((recordsSize + 1 : Nat) : Int) > maxRecords
          ∨ ((bytesSize + line.utf8ByteSize : Nat) : Int) > maxBytes then
        (if buff.isEmpty then [] else [(recordsSize + 1 - 1, buff)]) ++
          chunkListsAux maxRecords maxBytes rest 1 line.utf8ByteSize [line]
      else
        chunkListsAux maxRecords maxBytes rest (recordsSize + 1)
          (bytesSize + line.utf8ByteSize) (buff ++ [line])

lemma yieldChunksAux_eq_chunkListsAux (header : String) (maxRecords maxBytes : Int)
    (lines : List String) :
    ∀ (recordsSize bytesSize : Nat) (buff : List String),
      yieldChunksAux header maxRecords maxBytes lines recordsSize bytesSize buff =
        (chunkListsAux maxRecords maxBytes lines recordsSize bytesSize buff).map
          (fun c => (c.1, header ++ String.join c.2)) := by
  induction lines with
  | nil =>
      intro recordsSize bytesSize buff
      simp only [yieldChunksAux, chunkListsAux]
      split <;> simp
  | cons line rest ih =>
      intro recordsSize bytesSize buff
      simp only [yieldChunksAux, chunkListsAux]
      split
      · rw [List.map_append, ih]
        congr 1
        split <;> simp
      · exact ih _ _ _

lemma chunkListsAux_join (maxRecords maxBytes : Int) (lines : List String) :
    ∀ (recordsSize bytesSize : Nat) (buff : List String),
      ((chunkListsAux maxRecords maxBytes lines recordsSize bytesSize buff).map
          Prod.snd).flatten = buff ++ lines := by
  induction lines with
  | nil =>
      intro recordsSize bytesSize buff
      simp only [chunkListsAux]
      split
      · simp_all [List.isEmpty_iff]
      · simp
  | cons line rest ih =>
      intro recordsSize bytesSize buff
      simp only [chunkListsAux]
      split
      · rw [List.map_append, List.flatten_append, ih]
        split
        · simp_all [List.isEmpty_iff]
        · simp
      · rw [ih]
        simp

/-- C1: each chunk was claimed to hold at most `max(max_records, 1)` records.
The code computes `_max_records = max(max_records, len(lines))`
(bulk2.py line 478), so a caller-supplied `max_records` smaller than the total
record count never restricts anything: on a four-line file `"h\na\nb\nc\n"`
with `max_records = 2` the chunker emits a single chunk of 3 records, where
the claimed bound is `max(2, 1) = 2`. -/
theorem splitCsvFile_ignores_max_records :
    splitCsvFile "h\na\nb\nc\n" (some 2) = [(3, "h\na\nb\nc\n")] ∧
    ¬ (3 : Nat) ≤ max 2 1 := by
  constructor
  · rfl
  · decide

/-- C2: the output of the chunker is exactly a partition of the input rows: the
chunk texts are `header ++ String.join part` for the consecutive parts of a
partition of `lines` (so every chunk begins with the parsed header line), and
joining the parts gives back `lines` in the original order. -/
theorem yieldChunks_reconstructs_rows (header : String) (lines : List String)
    (maxRecords maxBytes : Int) :
    ((chunkListsAux maxRecords maxBytes lines 0 0 []).map Prod.snd).flatten = lines ∧
    yieldChunks header lines maxRecords maxBytes =
      (chunkListsAux maxRecords maxBytes lines 0 0 []).map
        (fun c => (c.1, header ++ String.join c.2)) := by
  refine ⟨?_, ?_⟩
  · simpa using chunkListsAux_join maxRecords maxBytes lines 0 0 []
  · exact yieldChunksAux_eq_chunkListsAux header maxRecords maxBytes lines 0 0 []

/-! ## Job wait loop (`Bulk2SFType.wait_for_job`, bulk2.py lines 638-671) -/

/-- One polled job description: the decoded body of `get_job`.  `raw` stands
for the serialized response dict, which `job_info.get("errorMessage",
job_info)` falls back to when no `errorMessage` key is present. -/
structure JobInfo where
  state : JobState
  errorMessage : Option String
  raw : String
deriving DecidableEq, Repr

/-- Embedding of the lookup `job_info.get("errorMessage", job_info)`. -/
def jobErrorText (info : JobInfo) : String := info.errorMessage.getD info.raw

/-- Message of the `SalesforceOperationError` raised on `Failed`/`Aborted`. -/
def failMessage (jobId : String) (info : JobInfo) : String :=
  "Job " ++ jobId ++ " failed with status " ++ stateText info.state ++ ": "
    ++ jobErrorText info

/-- Message of the `SalesforceOperationError` raised when the 24-hour deadline
elapses. -/
def timeoutMessage (jobId : String) (lastState : JobState) : String :=
  "Job " ++ jobId ++ " did not complete within the timeout period. Current status: "
    ++ stateText lastState

/-- Constant `DEFAULT_WAIT_TIMEOUT_SECONDS` (bulk2.py line 45). -/
def defaultWaitTimeoutSeconds : Nat := 24 * 60 * 60

/-- The body of the backoff update in `wait_for_job` (bulk2.py lines 665-667):
`if delay_timeout < MAX_CHECK_INTERVAL_SECONDS: delay_timeout = wait +
exp(delay_cnt) / 1000; delay_cnt += 1`.  State is `(delay_timeout,
delay_cnt)`; `e` is `math.exp` (instantiated with `Real.exp` in the theorems,
and with rational stand-ins in executable witnesses). -/
def delayStep {α : Type} [LinearOrderedField α] (wait : α) (e : ℕ → α)
    (s : α × ℕ) : α × ℕ :=
  if s.1 < 2 then (wait + e s.2 / 1000, s.2 + 1) else s

/-- The backoff state after `k` loop iterations, starting from
`delay_timeout = 0.0`, `delay_cnt = 0` (bulk2.py lines 651-652). -/
def delaySeq {α : Type} [LinearOrderedField α] (wait : α) (e : ℕ → α) : ℕ → α × ℕ
  | 0 => (0, 0)
  | k + 1 => delayStep wait e (delaySeq wait e k)

@[simp] lemma delaySeq_zero {α : Type} [LinearOrderedField α] (wait : α) (e : ℕ → α) :
    delaySeq wait e 0 = (0, 0) := rfl

@[simp] lemma delaySeq_succ {α : Type} [LinearOrderedField α] (wait : α) (e : ℕ → α)
    (k : ℕ) : delaySeq wait e (k + 1) = delayStep wait e (delaySeq wait e k) := rfl

/-- The sequence of `sleep` durations of `wait_for_job`: `sleep(wait)` before
the loop (bulk2.py line 653), then `sleep(delay_timeout)` at the end of each
iteration (line 668). -/
def sleepTrace {α : Type} [LinearOrderedField α] (wait : α) (e : ℕ → α) : ℕ → α
  | 0 => wait
  | k + 1 => (delaySeq wait e (k + 1)).1

/-- Outcome of `wait_for_job`. -/
inductive WaitOutcome
  | complete
  | jobFailed (msg : String)
  | timedOut (msg : String)
  | serverSilent
deriving DecidableEq, Repr

/-- The polling loop of `wait_for_job` (bulk2.py lines 654-671), with the
successive `get_job` bodies of the server passed as the list `polls`.  `elapsed` is
`datetime.now() - (expiration_time - 24h)`, advanced by each sleep, so the
loop guard `datetime.now() < expiration_time` is `elapsed < 86400`.
`serverSilent` is the model artifact for running out of scripted responses
mid-loop. -/
def waitForJobAux {α : Type} [LinearOrderedField α] (jobId : String) (wait : α)
    (e : ℕ → α) :
    List JobInfo → α → α × ℕ → JobState → WaitOutcome
  | [], elapsed, _d, lastState =>
      if elapsed < (defaultWaitTimeoutSeconds : α) then .serverSilent
      else .timedOut (timeoutMessage jobId lastState)
  | info :: rest, elapsed, d, lastState =>
      if elapsed < (defaultWaitTimeoutSeconds : α) then
        if info.state = .jobComplete then .complete
        else if info.state = .failed ∨ info.state = .aborted then
          .jobFailed (failMessage jobId info)
        else
          waitForJobAux jobId wait e rest (elapsed + (delayStep wait e d).1)
            (delayStep wait e d) info.state
      else .timedOut (timeoutMessage jobId lastState)

/-- Entry of `wait_for_job`: `job_status = "InProgress" if is_query else "Open"`,
`delay_timeout = 0.0`, `delay_cnt = 0`, `sleep(wait)` (so `elapsed` starts at
`wait`). -/
def waitForJob {α : Type} [LinearOrderedField α] (jobId : String) (isQuery : Bool)
    (wait : α) (e : ℕ → α) (polls : List JobInfo) : WaitOutcome :=
  waitForJobAux jobId wait e polls wait (0, 0)
    (if isQuery then .inProgress else .jobOpen)

/-- C3: `wait_for_job` returns on the first `JobComplete` poll, raises a
`SalesforceOperationError` carrying the server-reported `errorMessage` on the
first `Failed`/`Aborted` poll, raises the timeout error once the 24-hour
deadline has elapsed, and on the concrete polled sequences
`["Open", "InProgress", "JobComplete"]` and `["Open", "Failed"]` it completes
resp. raises. -/
theorem waitForJob_terminal_behaviour :
    (∀ (α : Type) (inst : LinearOrderedField α) (jobId : String) (wait : α)
        (e : ℕ → α) (info : JobInfo) (rest : List JobInfo) (elapsed : α)
        (d : α × ℕ) (lastState : JobState),
        elapsed < (defaultWaitTimeoutSeconds : α) →
        info.state = .jobComplete →
        waitForJobAux jobId wait e (info :: rest) elapsed d lastState = .complete) ∧
    (∀ (α : Type) (inst : LinearOrderedField α) (jobId : String) (wait : α)
        (e : ℕ → α) (info : JobInfo) (rest : List JobInfo) (elapsed : α)
        (d : α × ℕ) (lastState : JobState) (m : String),
        elapsed < (defaultWaitTimeoutSeconds : α) →
        info.state = .failed ∨ info.state = .aborted →
        info.errorMessage = some m →
        waitForJobAux jobId wait e (info :: rest) elapsed d lastState =
          .jobFailed ("Job " ++ jobId ++ " failed with status "
            ++ stateText info.state ++ ": " ++ m)) ∧
    (∀ (α : Type) (inst : LinearOrderedField α) (jobId : String) (wait : α)
        (e : ℕ → α) (polls : List JobInfo) (elapsed : α) (d : α × ℕ)
        (lastState : JobState),
        ¬ elapsed < (defaultWaitTimeoutSeconds : α) →
        waitForJobAux jobId wait e polls elapsed d lastState =
          .timedOut (timeoutMessage jobId lastState)) ∧
    waitForJob "750J" false (1 : ℚ) (fun _ => 1)
      [⟨.jobOpen, none, "r1"⟩, ⟨.inProgress, none, "r2"⟩, ⟨.jobComplete, none, "r3"⟩]
      = .complete ∧
    waitForJob "750J" false (1 : ℚ) (fun _ => 1)
      [⟨.jobOpen, none, "r1"⟩, ⟨.failed, some "boom", "r2"⟩]
      = .jobFailed "Job 750J failed with status Failed: boom" := by
  refine ⟨?_, ?_, ?_, ?_, ?_⟩
  · intro α inst jobId wait e info rest elapsed d lastState hT hS
    simp [waitForJobAux, hT, hS]
  · intro α inst jobId wait e info rest elapsed d lastState m hT hS hM
    have hne : info.state ≠ .jobComplete := by
      rcases hS with h | h <;> rw [h] <;> exact fun h' => by cases h'
    simp [waitForJobAux, hT, hne, hS, failMessage, jobErrorText, hM]
  · intro α inst jobId wait e polls elapsed d lastState hT
    cases polls <;> simp [waitForJobAux, hT]
  · norm_num [waitForJob, waitForJobAux, delayStep, defaultWaitTimeoutSeconds]
    decide
  · norm_num [waitForJob, waitForJobAux, delayStep, defaultWaitTimeoutSeconds,
      failMessage, jobErrorText, stateText]
    decide

/-- Witness for `waitForJob_terminal_behaviour`: its hypotheses hold at
concrete inputs (over `ℚ`, with a constant stand-in for `math.exp`). -/
theorem waitForJob_terminal_behaviour_witness :
    waitForJobAux "750J" (1 : ℚ) (fun _ => 1) [⟨.jobComplete, none, "r"⟩] 1 (0, 0)
      .jobOpen = .complete ∧
    waitForJobAux "750J" (1 : ℚ) (fun _ => 1) [⟨.aborted, some "halt", "r"⟩] 1 (0, 0)
      .jobOpen = .jobFailed "Job 750J failed with status Aborted: halt" ∧
    waitForJobAux "750J" (1 : ℚ) (fun _ => 1) [⟨.jobOpen, none, "r"⟩] 90000 (0, 0)
      .inProgress = .timedOut (timeoutMessage "750J" .inProgress) :=
  ⟨waitForJob_terminal_behaviour.1 ℚ inferInstance "750J" 1 (fun _ => 1)
      ⟨.jobComplete, none, "r"⟩ [] 1 (0, 0) .jobOpen
      (by norm_num [defaultWaitTimeoutSeconds]) rfl,
   waitForJob_terminal_behaviour.2.1 ℚ inferInstance "750J" 1 (fun _ => 1)
      ⟨.aborted, some "halt", "r"⟩ [] 1 (0, 0) .jobOpen "halt"
      (by norm_num [defaultWaitTimeoutSeconds]) (Or.inr rfl) rfl,
   waitForJob_terminal_behaviour.2.2.1 ℚ inferInstance "750J" 1 (fun _ => 1)
      [⟨.jobOpen, none, "r"⟩] 90000 (0, 0) .inProgress
      (by norm_num [defaultWaitTimeoutSeconds])⟩

/-- Embedding of `math.exp(delay_cnt)` where `delay_cnt` is the integer loop counter:
the real exponential applied to the cast of the counter. -/
noncomputable def expNat (n : ℕ) : ℝ := Real.exp n

lemma expNat_zero : expNat 0 = 1 := by simp [expNat]

/-- C4 counterexample: with `base_wait = 5` (the default `wait` used by every
public entry point of `bulk2.py` is 5), the first in-loop delay is
`5 + exp(0)/1000 = 5.001 s`; since `delay_timeout < 2` then fails, the delay
is never recomputed and every subsequent inter-poll delay stays `5.001 s` —
the claim that after reaching the cap the delay "stays at the cap (never
exceeds 2 seconds)" is false at the second in-loop delay. -/
theorem delaySeq_exceeds_two_second_cap :
    delaySeq (5 : ℝ) expNat 2 = delaySeq (5 : ℝ) expNat 1 ∧
    2 < (delaySeq (5 : ℝ) expNat 2).1 := by
  have h1 : delaySeq (5 : ℝ) expNat 1 = (5 + expNat 0 / 1000, 1) := by
    rw [delaySeq_succ, delaySeq_zero, delayStep, if_pos (by norm_num : (0 : ℝ) < 2)]
  have hge : ¬ (5 + expNat 0 / 1000 : ℝ) < 2 := by
    rw [expNat_zero]; norm_num
  have h2 : delaySeq (5 : ℝ) expNat 2 = delaySeq (5 : ℝ) expNat 1 := by
    rw [delaySeq_succ, h1, delayStep, if_neg hge]
  refine ⟨h2, ?_⟩
  rw [h2, h1, expNat_zero]
  norm_num

/-- C4 (amended): the first sleep equals `base_wait`, and while the stored
delay is below the 2-second `MAX_CHECK_INTERVAL_SECONDS` the next delay is
recomputed as `base_wait + exp(delay_cnt)/1000`; once the stored delay is
`≥ 2 s` it is frozen — every later inter-poll delay equals that same value,
which is not clamped and may exceed 2 seconds. -/
theorem delaySeq_growth_then_freeze :
    (∀ wait : ℝ, sleepTrace wait expNat 0 = wait) ∧
    (∀ (wait : ℝ) (k : ℕ), (delaySeq wait expNat k).1 < 2 →
        sleepTrace wait expNat (k + 1) =
          wait + expNat (delaySeq wait expNat k).2 / 1000) ∧
    (∀ (wait : ℝ) (k m : ℕ), ¬ (delaySeq wait expNat k).1 < 2 →
        delaySeq wait expNat (k + m) = delaySeq wait expNat k) := by
  refine ⟨fun wait => rfl, ?_, ?_⟩
  · intro wait k h
    show (delaySeq wait expNat (k + 1)).1 = _
    rw [delaySeq_succ, delayStep, if_pos h]
  · intro wait k m h
    induction m with
    | zero => rfl
    | succ m ih =>
        have hkm : k + (m + 1) = (k + m) + 1 := by omega
        rw [hkm, delaySeq_succ, ih, delayStep, if_neg h]

/-- Witness for `delaySeq_growth_then_freeze` at `base_wait = 5`: the growth
law applies at iteration 0 (stored delay `0 < 2`), and the freeze law applies
from iteration 1 on (stored delay `5.001 ≥ 2`). -/
theorem delaySeq_growth_then_freeze_witness :
    sleepTrace (5 : ℝ) expNat 0 = 5 ∧
    sleepTrace (5 : ℝ) expNat 1 = 5 + expNat 0 / 1000 ∧
    delaySeq (5 : ℝ) expNat 3 = delaySeq (5 : ℝ) expNat 1 := by
  have h1 : delaySeq (5 : ℝ) expNat 1 = (5 + expNat 0 / 1000, 1) := by
    rw [delaySeq_succ, delaySeq_zero, delayStep, if_pos (by norm_num : (0 : ℝ) < 2)]
  refine ⟨delaySeq_growth_then_freeze.1 5, ?_, ?_⟩
  · have := delaySeq_growth_then_freeze.2.1 5 0 (by rw [delaySeq_zero]; norm_num)
    simpa using this
  · exact delaySeq_growth_then_freeze.2.2 5 1 2
      (by rw [h1, expNat_zero]; norm_num)

/-! ## Query pager (`get_query_results`, `query_all`, `_filter_null_bytes`) -/

/-- Embedding of `Bulk2SFType._filter_null_bytes` (bulk2.py lines 702-712), `str` branch:
`b.replace("\x00", "")`. -/
def filterNullBytes (s : String) : String :=
  String.mk (s.data.filter fun c => c != '\x00')

/-- One raw HTTP response of `GET query/{id}/results`: the `Sforce-Locator`
and `Sforce-NumberOfRecords` headers plus the body text. -/
structure RawQueryResponse where
  sforceLocator : Option String
  sforceNumberOfRecords : Int
  text : String
deriving DecidableEq, Repr

/-- The `BulkQueryResult` dict built by `get_query_results` (bulk2.py lines
690-700): `locator = headers.get("Sforce-Locator", "null")`, mapped to `""`
when `"null"`; `records = _filter_null_bytes(result.text)`. -/
structure BulkQueryResult where
  locator : String
  numberOfRecords : Int
  records : String
deriving DecidableEq, Repr

/-- Response processing of `get_query_results`. -/
def getQueryResultsProcess (raw : RawQueryResponse) : BulkQueryResult :=
  { locator :=
      if raw.sforceLocator.getD "null" = "null" then ""
      else raw.sforceLocator.getD "null",
    numberOfRecords := raw.sforceNumberOfRecords,
    records := filterNullBytes raw.text }

/-- Request-parameter side of `get_query_results` (bulk2.py lines 679-681):
`locator` is put into the query parameters only when it is truthy and not
`"null"`. -/
def locatorParam (locator : String) : Option String :=
  if locator ≠ "" ∧ locator ≠ "null" then some locator else none

/-- The pagination loop shared by `query` / `query_all` (bulk2.py lines
244-250): starting from locator `"INIT"` (immediately replaced by `""`), call
`get_query_results` with the current locator, yield the records text of the page,
and continue while the returned locator is non-empty.  `pages` scripts the
successive server responses; each yielded pair records the locator the page
was requested with and the records text handed to the caller. -/
def queryAllAux : String → List RawQueryResponse → List (String × String)
  | _, [] => []
  | loc, page :: rest =>
      (loc, (getQueryResultsProcess page).records) ::
        (if (getQueryResultsProcess page).locator = "" then []
         else queryAllAux (getQueryResultsProcess page).locator rest)

/-- Generator of `query_all`: the first request is made with locator `""`. -/
def queryAllPages (pages : List RawQueryResponse) : List (String × String) :=
  queryAllAux "" pages

/-- The prefix of the scripted responses that the pager actually consumes:
everything up to and including the first response whose processed locator is
empty. -/
def pagesThroughEmptyLocator : List RawQueryResponse → List RawQueryResponse
  | [] => []
  | page :: rest =>
      page :: (if (getQueryResultsProcess page).locator = "" then []
               else pagesThroughEmptyLocator rest)

lemma queryAllAux_records (pages : List RawQueryResponse) :
    ∀ loc, (queryAllAux loc pages).map Prod.snd =
      (pagesThroughEmptyLocator pages).map fun p => filterNullBytes p.text := by
  induction pages with
  | nil => intro loc; rfl
  | cons page rest ih =>
      intro loc
      simp only [queryAllAux, pagesThroughEmptyLocator]
      split
      · simp [getQueryResultsProcess]
      · simp only [List.map_cons, ih]
        rfl

/-- C5: the pager yields exactly one records text per consumed response, in
order, consuming responses up to and including the first one whose locator is
empty/absent; the first request carries the empty locator; and on a scripted
3-page run with locators `"A"`, `"B"`, `""` it yields exactly the 3 page
texts and stops, whatever responses might follow. -/
theorem queryAll_pagination :
    (∀ pages : List RawQueryResponse,
        (queryAllPages pages).map Prod.snd =
          (pagesThroughEmptyLocator pages).map fun p => filterNullBytes p.text) ∧
    (∀ (p : RawQueryResponse) (rest : List RawQueryResponse),
        (queryAllPages (p :: rest)).head? =
          some ("", (getQueryResultsProcess p).records)) ∧
    (∀ (p₁ p₂ p₃ : RawQueryResponse) (rest : List RawQueryResponse),
        (getQueryResultsProcess p₁).locator = "A" →
        (getQueryResultsProcess p₂).locator = "B" →
        (getQueryResultsProcess p₃).locator = "" →
        queryAllPages (p₁ :: p₂ :: p₃ :: rest) =
          [("", (getQueryResultsProcess p₁).records),
           ("A", (getQueryResultsProcess p₂).records),
           ("B", (getQueryResultsProcess p₃).records)]) := by
  refine ⟨fun pages => queryAllAux_records pages "", ?_, ?_⟩
  · intro p rest
    simp [queryAllPages, queryAllAux]
  · intro p₁ p₂ p₃ rest h₁ h₂ h₃
    simp [queryAllPages, queryAllAux, h₁, h₂, h₃]

/-- Witness for `queryAll_pagination`: a concrete 3-page mock whose raw
locator headers are `"A"`, `"B"` and absent (→ `"null"` → `""`). -/
theorem queryAll_pagination_witness :
    queryAllPages
        [⟨some "A", 2, "h\nr1\n"⟩, ⟨some "B", 2, "h\nr2\n"⟩, ⟨none, 1, "h\nr3\n"⟩,
         ⟨some "Z", 9, "h\nzz\n"⟩] =
      [("", "h\nr1\n"), ("A", "h\nr2\n"), ("B", "h\nr3\n")] :=
  queryAll_pagination.2.2 ⟨some "A", 2, "h\nr1\n"⟩ ⟨some "B", 2, "h\nr2\n"⟩
    ⟨none, 1, "h\nr3\n"⟩ [⟨some "Z", 9, "h\nzz\n"⟩] (by decide) (by decide) (by decide)

/-- C9: `_filter_null_bytes` is the identity on null-free text, its output
never contains a null byte, it maps `"a\x00b"` to `"ab"`, and
`get_query_results` hands the caller exactly the filtered response text. -/
theorem filterNullBytes_strips_nulls :
    (∀ s : String, (∀ c ∈ s.data, c ≠ '\x00') → filterNullBytes s = s) ∧
    (∀ (s : String) (c : Char), c ∈ (filterNullBytes s).data → c ≠ '\x00') ∧
    filterNullBytes "a\x00b" = "ab" ∧
    (∀ raw : RawQueryResponse,
        (getQueryResultsProcess raw).records = filterNullBytes raw.text) := by
  refine ⟨?_, ?_, by decide, fun raw => rfl⟩
  · intro s h
    cases s with
    | mk l =>
        show String.mk (l.filter fun c => c != '\x00') = String.mk l
        rw [List.filter_eq_self.mpr]
        intro a ha
        simpa using h a ha
  · intro s c hc
    have : c ∈ s.data.filter fun c => c != '\x00' := hc
    simpa using (List.mem_filter.mp this).2

/-- Witness for `filterNullBytes_strips_nulls`: the identity law applied to
the null-free string `"Id"`. -/
theorem filterNullBytes_strips_nulls_witness : filterNullBytes "Id" = "Id" :=
  filterNullBytes_strips_nulls.1 "Id" (by decide)

/-! ## Job creation (`Bulk2SFType.create_job`, bulk2.py lines 562-607) -/

/-- The JSON payload assembled by `create_job`: `operation`,
`columnDelimiter`, `lineEnding` always; `externalIdFieldName` when the
`external_id_field` argument is truthy; then either `query` (query jobs) or
`object` + `contentType` (ingestion jobs). -/
structure JobPayload where
  operation : SFOperation
  columnDelimiter : ColumnDelimiter
  lineEnding : LineEnding
  externalIdFieldName : Option String
  query : Option String
  object : Option String
  contentType : Option String
deriving DecidableEq, Repr

/-- Python truthiness of an optional string: `None` and `""` are falsy. -/
def pyTruthy (s : Option String) : Option String :=
  match s with
  | some str => if str = "" then none else some str
  | none => none

lemma pyTruthy_ne_none_iff (s : Option String) :
    pyTruthy s ≠ none ↔ ∃ str, s = some str ∧ str ≠ "" := by
  cases s with
  | none => simp [pyTruthy]
  | some str =>
      by_cases h : str = "" <;> simp [pyTruthy, h]

/-- Embedding of `create_job` (bulk2.py lines 562-607) up to the POST: the payload it
sends, or the `SalesforceBulkV2ExtractError` it raises when a `query` /
`queryAll` job is requested without a (truthy) query. -/
def createJobPayload (objectName : String) (operation : SFOperation)
    (query : Option String) (delim : ColumnDelimiter) (le : LineEnding)
    (externalIdField : Option String) : Except SFError JobPayload :=
  if operation = .query ∨ operation = .queryAll then
    match pyTruthy query with
    | none => .error (.bulkV2ExtractError "Query is required for query jobs")
    | some q =>
        .ok { operation := operation, columnDelimiter := delim, lineEnding := le,
              externalIdFieldName := pyTruthy externalIdField,
              query := some q, object := none, contentType := none }
  else
    .ok { operation := operation, columnDelimiter := delim, lineEnding := le,
          externalIdFieldName := pyTruthy externalIdField,
          query := none, object := some objectName, contentType := some "CSV" }

/-- The `create_job` call made on behalf of `soft_delete` (bulk2.py lines
307-334): `soft_delete` accepts an `external_id_field` argument and forwards
it through `_upload_file` and `_upload_data` to `create_job` with
`operation = "delete"`. -/
def softDeleteCreateJobPayload (objectName : String) (delim : ColumnDelimiter)
    (le : LineEnding) (externalIdField : Option String) : Except SFError JobPayload :=
  createJobPayload objectName .delete none delim le externalIdField

/-- The `create_job` call made on behalf of `upsert` (bulk2.py lines
280-305): `external_id_field` defaults to `"Id"`. -/
def upsertCreateJobPayload (objectName : String) (delim : ColumnDelimiter)
    (le : LineEnding) (externalIdField : String := "Id") : Except SFError JobPayload :=
  createJobPayload objectName .upsert none delim le (some externalIdField)

/-- C8 counterexample: `soft_delete(..., external_id_field="AccountId")`
creates a job whose payload carries `externalIdFieldName` although its
operation is `delete`, not `upsert` — so "externalIdFieldName is set iff the
operation is upsert" fails on the code. -/
theorem createJob_extIdField_not_only_upsert :
    (softDeleteCreateJobPayload "Account" .comma .lf (some "AccountId")).toOption.map
        (fun p => (p.operation, p.externalIdFieldName)) =
      some (SFOperation.delete, some "AccountId") := by
  decide

/-- C8 (amended): in every payload `create_job` sends, `query` is set iff the
operation is `query`/`queryAll` (and requesting a query job with a missing or
empty query raises the extraction error instead), while `externalIdFieldName`
is set iff a non-empty `external_id_field` argument was passed — `upsert`
always passes one (default `"Id"`), but `soft_delete` may pass one too, so
the field is not tied to the upsert operation. -/
theorem createJob_payload_field_laws :
    (∀ (objectName : String) (operation : SFOperation) (query : Option String)
        (delim : ColumnDelimiter) (le : LineEnding) (ext : Option String)
        (payload : JobPayload),
        createJobPayload objectName operation query delim le ext = .ok payload →
        ((payload.query ≠ none ↔ operation = .query ∨ operation = .queryAll) ∧
         (payload.externalIdFieldName ≠ none ↔ ∃ s, ext = some s ∧ s ≠ ""))) ∧
    (∀ (objectName : String) (delim : ColumnDelimiter) (le : LineEnding)
        (ext : Option String) (operation : SFOperation) (query : Option String),
        (operation = .query ∨ operation = .queryAll) → pyTruthy query = none →
        createJobPayload objectName operation query delim le ext =
          .error (.bulkV2ExtractError "Query is required for query jobs")) ∧
    (∀ (objectName : String) (delim : ColumnDelimiter) (le : LineEnding),
        (upsertCreateJobPayload objectName delim le).toOption.map
            (fun p => p.externalIdFieldName) = some (some "Id")) := by
  refine ⟨?_, ?_, ?_⟩
  · intro objectName operation query delim le ext payload h
    by_cases hop : operation = .query ∨ operation = .queryAll
    · rw [createJobPayload, if_pos hop] at h
      cases hq : pyTruthy query with
      | none => rw [hq] at h; cases h
      | some q =>
          rw [hq] at h
          cases h
          constructor
          · simpa using hop
          · simpa using pyTruthy_ne_none_iff ext
    · rw [createJobPayload, if_neg hop] at h
      cases h
      constructor
      · simpa using hop
      · simpa using pyTruthy_ne_none_iff ext
  · intro objectName delim le ext operation query hop hq
    rw [createJobPayload, if_pos hop, hq]
  · intro objectName delim le
    rfl

/-- Witness for `createJob_payload_field_laws`: concrete instantiations of
each hypothesis-bearing law. -/
theorem createJob_payload_field_laws_witness :
    ((({ operation := .insert, columnDelimiter := .comma, lineEnding := .lf,
         externalIdFieldName := none, query := none,
         object := some "Account", contentType := some "CSV" } : JobPayload).query
          ≠ none ↔ (SFOperation.insert = .query ∨ SFOperation.insert = .queryAll)) ∧
     (({ operation := .insert, columnDelimiter := .comma, lineEnding := .lf,
         externalIdFieldName := none, query := none,
         object := some "Account", contentType := some "CSV" } : JobPayload).externalIdFieldName
          ≠ none ↔ ∃ s, (none : Option String) = some s ∧ s ≠ "")) ∧
    createJobPayload "Account" .query (some "") .comma .lf none =
      .error (.bulkV2ExtractError "Query is required for query jobs") :=
  ⟨createJob_payload_field_laws.1 "Account" .insert none .comma .lf none
      { operation := .insert, columnDelimiter := .comma, lineEnding := .lf,
        externalIdFieldName := none, query := none,
        object := some "Account", contentType := some "CSV" } rfl,
   createJob_payload_field_laws.2.1 "Account" .comma .lf none .query
      (some "") (Or.inl rfl) (by decide)⟩

/-! ## Upload dispatcher (`_upload_file` preflight and `_upload_data`) -/

/-- Python single-quoted `repr` of a string (as produced by `{operation!r}`
in the `InvalidBatch` message). -/
def pyQuote (s : String) : String :=
  String.singleton (Char.ofNat 39) ++ s ++ String.singleton (Char.ofNat 39)

/-- Python `repr` of a list of strings (as interpolated by `{header}` in the
`InvalidBatch` message). -/
def pyListRepr (xs : List String) : String :=
  "[" ++ String.intercalate ", " (xs.map pyQuote) ++ "]"

/-- Embedding of `bis.readline()`: the first line of the text, terminator included. -/
def firstLineAux : List Char → List Char
  | [] => []
  | c :: rest => if c = '\n' then [c] else c :: firstLineAux rest

/-- See `firstLineAux`. -/
def firstLine (s : String) : String := String.mk (firstLineAux s.data)

/-- Python `str.rstrip()` restricted to ASCII whitespace. -/
def rstripWs (s : String) : String :=
  String.mk (s.data.reverse.dropWhile fun c =>
    c == ' ' || c == '\t' || c == '\n' || c == '\r').reverse

/-- Python `str.split(sep)` for a single-character separator: split on every
occurrence, keeping empty fields. -/
def splitOnCharAux (d : Char) : List Char → List Char → List String
  | [], acc => [String.mk acc.reverse]
  | c :: rest, acc =>
      if c = d then String.mk acc.reverse :: splitOnCharAux d rest []
      else splitOnCharAux d rest (c :: acc)

/-- See `splitOnCharAux`. -/
def splitOnChar (d : Char) (s : String) : List String := splitOnCharAux d s.data []

/-- The header of a delete batch as `_upload_file` parses it (bulk2.py lines
739-742): `bis.readline().rstrip().split(_delimiter_char[column_delimiter])`. -/
def deleteHeader (content : String) (delim : ColumnDelimiter) : List String :=
  splitOnChar (delimiterChar delim) (rstripWs (firstLine content))

/-- Result of the pre-network section of `_upload_file` (bulk2.py lines 728-746),
i.e. everything before `_split_csv` is consumed and `_upload_data` starts
creating jobs.  Only `proceed` reaches job creation / the network. -/
inductive PreflightOutcome
  | err (e : SFError)
  | assertFailure (msg : String)
  | proceed
deriving DecidableEq, Repr

/-- Pre-network checks of `_upload_file`, in source order: the
both-sources check, then (for `delete` / `hardDelete`) the
`assert csv_file` and the one-column header check.  `csvFile` is the content
of the provided file (the `os.path.exists` check is modelled by the file
content being available). -/
def uploadFilePreflight (operation : SFOperation) (csvFile : Option String)
    (records : Option String) (delim : ColumnDelimiter) : PreflightOutcome :=
  if csvFile.isSome ∧ records.isSome then
    .err (.bulkV2LoadError "Cannot include both file and records")
  else if operation = .delete ∨ operation = .hardDelete then
    match csvFile with
    | none => .assertFailure "File is required for delete operations"
    | some content =>
        if (deleteHeader content delim).length ≠ 1 then
          .err (.bulkV2LoadError ("InvalidBatch: The " ++ pyQuote (opText operation)
            ++ " batch must contain only ids, " ++ pyListRepr (deleteHeader content delim)))
        else .proceed
  else .proceed

/-- C7: a file-based `delete` / `hardDelete` whose header, split on the
configured delimiter, does not have exactly one column fails with the
`InvalidBatch` load error naming the offending header, in the pre-network
section — before `_split_csv` runs and before any job is created (only
`proceed` continues to those steps). -/
theorem delete_multi_column_header_fails_fast :
    ∀ (operation : SFOperation) (content : String) (records : Option String)
      (delim : ColumnDelimiter),
      operation = .delete ∨ operation = .hardDelete →
      records = none →
      (deleteHeader content delim).length ≠ 1 →
      uploadFilePreflight operation (some content) records delim =
        .err (.bulkV2LoadError ("InvalidBatch: The " ++ pyQuote (opText operation)
          ++ " batch must contain only ids, " ++ pyListRepr (deleteHeader content delim))) := by
  intro operation content records delim hop hrec hlen
  subst hrec
  rw [uploadFilePreflight, if_neg (by simp), if_pos hop]
  exact if_pos hlen

/-- Witness for `delete_multi_column_header_fails_fast`: a two-column header
`"Id,Name"` under the comma delimiter. -/
theorem delete_multi_column_header_fails_fast_witness :
    uploadFilePreflight .delete (some "Id,Name\n001\n") none .comma =
      .err (.bulkV2LoadError ("InvalidBatch: The " ++ pyQuote "delete"
        ++ " batch must contain only ids, " ++ pyListRepr ["Id", "Name"])) := by
  have h := delete_multi_column_header_fails_fast .delete "Id,Name\n001\n" none
    .comma (Or.inl rfl) rfl (by decide)
  rw [h]
  decide

/-- Outcome of `_upload_data` (bulk2.py lines 788-834) paired with whether
`abort_job` was invoked by the `except` handler. -/
structure UploadDataOutcome where
  result : Except SFError (Int × Int × Int × String)
  abortCalled : Bool
deriving Repr

/-- Embedding of `res["state"] in ("UploadComplete", "InProgress", "Open")` — the states
in which the `except` handler of `_upload_data` aborts the job. -/
def isAbortableState : JobState → Bool
  | .uploadComplete => true
  | .inProgress => true
  | .jobOpen => true
  | _ => false

/-- Environment of one `_upload_data` call: what `create_job` returned
(`createState`, with `createRaw` its serialized response), whether
`wait_for_job` raised (`waitFails`; in this repository `upload_job_data` and
`close_job` are `...` stubs that never raise, so inside the `try` only
`wait_for_job` and the not-Open branch raise), the job state that the
`get_job` of the handler observes, and the final record counts. -/
structure UploadEnv where
  jobId : String
  createState : JobState
  createRaw : String
  waitFails : Option String
  observedState : JobState
  numberRecordsFailed : Int
  numberRecordsProcessed : Int
deriving DecidableEq, Repr

/-- Embedding of `Bulk2SFType._upload_data`: on `res["state"] == "Open"` it uploads,
closes and waits; any exception runs the `except` handler, which aborts the
job exactly when the observed state is `UploadComplete`/`InProgress`/`Open`
and then re-raises the original exception (`abort_job` is a stub returning
`None`, so it cannot mask the original exception). -/
def uploadData (env : UploadEnv) (total : Int) : UploadDataOutcome :=
  if env.createState = .jobOpen then
    match env.waitFails with
    | some m =>
        { result := .error (.operationError m),
          abortCalled := isAbortableState env.observedState }
    | none =>
        { result := .ok (env.numberRecordsFailed, env.numberRecordsProcessed,
            total, env.jobId),
          abortCalled := false }
  else
    { result := .error (.bulkV2LoadError
        ("Failed to upload job data. Response content: " ++ env.createRaw)),
      abortCalled := isAbortableState env.observedState }

lemma isAbortableState_iff (s : JobState) :
    isAbortableState s = true ↔
      s = .uploadComplete ∨ s = .inProgress ∨ s = .jobOpen := by
  cases s <;> simp [isAbortableState]

/-- C6: whenever `_upload_data` hits an exception (a failure raised by
`wait_for_job`, or the not-`Open` create response), the original error is
re-raised unchanged, and `abort_job` is attempted exactly when the observed
job state is non-terminal and non-aborted (`UploadComplete`, `InProgress` or
`Open`); the propagated error does not depend on the abort at all. -/
theorem uploadData_abort_and_reraise :
    (∀ (env : UploadEnv) (total : Int) (m : String),
        env.createState = .jobOpen → env.waitFails = some m →
        (uploadData env total).result = .error (.operationError m) ∧
        ((uploadData env total).abortCalled = true ↔
          env.observedState = .uploadComplete ∨ env.observedState = .inProgress ∨
            env.observedState = .jobOpen)) ∧
    (∀ (env : UploadEnv) (total : Int),
        env.createState ≠ .jobOpen →
        (uploadData env total).result = .error (.bulkV2LoadError
          ("Failed to upload job data. Response content: " ++ env.createRaw)) ∧
        ((uploadData env total).abortCalled = true ↔
          env.observedState = .uploadComplete ∨ env.observedState = .inProgress ∨
            env.observedState = .jobOpen)) := by
  constructor
  · intro env total m hstate hwait
    rw [uploadData, if_pos hstate, hwait]
    exact ⟨rfl, isAbortableState_iff env.observedState⟩
  · intro env total hstate
    rw [uploadData, if_neg hstate]
    exact ⟨rfl, isAbortableState_iff env.observedState⟩

/-- Witness for `uploadData_abort_and_reraise`: a job whose wait raised while
the job was observed `InProgress` (abort attempted), and a job whose create
response was not `Open` and was observed `Aborted` (no abort attempt). -/
theorem uploadData_abort_and_reraise_witness :
    ((uploadData ⟨"750A", .jobOpen, "raw1", some "Job 750A failed", .inProgress, 0, 0⟩
        3).result = .error (.operationError "Job 750A failed") ∧
      ((uploadData ⟨"750A", .jobOpen, "raw1", some "Job 750A failed", .inProgress, 0, 0⟩
        3).abortCalled = true ↔
        JobState.inProgress = .uploadComplete ∨ JobState.inProgress = .inProgress ∨
          JobState.inProgress = .jobOpen)) ∧
    ((uploadData ⟨"750B", .failed, "raw2", none, .aborted, 0, 0⟩ 3).result =
        .error (.bulkV2LoadError "Failed to upload job data. Response content: raw2") ∧
      ((uploadData ⟨"750B", .failed, "raw2", none, .aborted, 0, 0⟩ 3).abortCalled = true ↔
        JobState.aborted = .uploadComplete ∨ JobState.aborted = .inProgress ∨
          JobState.aborted = .jobOpen)) :=
  ⟨uploadData_abort_and_reraise.1
      ⟨"750A", .jobOpen, "raw1", some "Job 750A failed", .inProgress, 0, 0⟩ 3
      "Job 750A failed" rfl rfl,
   uploadData_abort_and_reraise.2
      ⟨"750B", .failed, "raw2", none, .aborted, 0, 0⟩ 3 (by decide)⟩

/-! ## `Bulk2SFType.download` (bulk2.py lines 361-405) -/

/-- Python-level failures surfaced by `download`: typed Salesforce errors or
an unhandled `NameError` from reading an unbound local. -/
inductive PyFailure
  | sfError (e : SFError)
  | nameError (name : String)
deriving DecidableEq, Repr

/-- Observable result of a `download` call. -/
structure DownloadResult where
  outcome : Except PyFailure Unit
  resultPagesFetched : Nat
  fileWrites : Nat
deriving Repr

/-- Environment of a `download` call: whether `path` exists and whether
`wait_for_job` raised. -/
structure DownloadEnv where
  path : String
  pathExists : Bool
  waitFails : Option String
deriving DecidableEq, Repr

/-- Embedding of `Bulk2SFType.download`: after the path check, job creation and wait, the
first iteration of the pagination loop sets `locator = ""`, computes `endpoint`
and `params` (without issuing any request) and then evaluates
`result["locator"]` — but no statement ever assigns `result`, so Python
raises `NameError` there.  The body contains no call fetching a results page
and no write to `path` before that point (nor anywhere else). -/
def download (env : DownloadEnv) : DownloadResult :=
  if env.pathExists = false then
    { outcome := .error (.sfError (.bulkV2LoadError ("Path not found: " ++ env.path))),
      resultPagesFetched := 0, fileWrites := 0 }
  else
    match env.waitFails with
    | some m =>
        { outcome := .error (.sfError (.operationError m)),
          resultPagesFetched := 0, fileWrites := 0 }
    | none =>
        { outcome := .error (.nameError "result"),
          resultPagesFetched := 0, fileWrites := 0 }

/-- C10: for every `download` call with an existing path whose query job
completes, the method dies with the `NameError` on the unbound local
`result` in the first pagination iteration: no result page is fetched, the
file is never written, and the call never returns normally. -/
theorem download_raises_name_error :
    ∀ env : DownloadEnv, env.pathExists = true → env.waitFails = none →
      download env =
        { outcome := .error (.nameError "result"),
          resultPagesFetched := 0, fileWrites := 0 } := by
  intro env hpath hwait
  rw [download, hwait]
  simp [hpath]

/-- Witness for `download_raises_name_error` at a concrete environment. -/
theorem download_raises_name_error_witness :
    download ⟨"/tmp/out.csv", true, none⟩ =
      { outcome := .error (.nameError "result"),
        resultPagesFetched := 0, fileWrites := 0 } :=
  download_raises_name_error ⟨"/tmp/out.csv", true, none⟩ rfl rfl

end Bulk2
